import Mathlib

/-!
Shallow embedding of the behavioral core of the repository: the session
lifecycle orchestration in `src/App.js` (the OpenID-with-Steam tutorial
script) and the promise-chain demo in the React component.

Identifier extraction, the validate callback, user (de)serialization, the
route handlers and the promise chain are translated directly from the
source; external collaborators (the session store, the OpenID provider
handshake) appear only through their observable results.
-/

set_option autoImplicit false

namespace MyApp

/-- A user object as constructed by the validate callback and by
`deserializeUser`: the OpenID claimed identifier (a URL string) and the
Steam ID extracted from its trailing digits (source lines 285-289). -/
structure User where
  identifier : String
  steamId : String
deriving Repr, DecidableEq

/-- The run of digit characters at the end of a string: the text matched by
the JavaScript regular expression `\d+$` (empty when the string does not
end in a digit). -/
def trailingDigits (s : String) : String :=
  String.mk ((s.data.reverse.takeWhile Char.isDigit).reverse)

/-- Model of `identifier.match(/\d+$/)`: `some` of the matched text when
the identifier ends in at least one digit character, `none` (JavaScript
`null`) otherwise. -/
def matchTrailingDigits (s : String) : Option String :=
  if trailingDigits s = "" then none else some (trailingDigits s)

/-- Error taxonomy of the authentication flow. `malformedIdentifier`
models the exception thrown by the `[0]` access when `match(/\d+$/)`
returns `null` (named `MalformedIdentifierError` in the spec);
`providerRejected` models the external provider declining the assertion
(the failure path of the authenticate middleware, `done(null, false)` by
convention). -/
inductive AuthError where
  | malformedIdentifier
  | providerRejected
deriving Repr, DecidableEq

/-- The validate callback of the `SteamStrategy` (source lines 278-296):
builds the user object from the claimed identifier, extracting the Steam
ID via `identifier.match(/\d+$/)[0]`, and hands it to `done(null, user)`.
When the match is `null` the `[0]` access throws, modelled as the
`malformedIdentifier` error. -/
def validateCallback (identifier : String) : Except AuthError User :=
  match matchTrailingDigits identifier with
  | some d => Except.ok { identifier := identifier, steamId := d }
  | none => Except.error AuthError.malformedIdentifier

/-- The `passport.serializeUser` callback (source lines 323-325): the
durable lookup key for a user is the claimed identifier itself. -/
def serializeUser (user : User) : String :=
  user.identifier

/-- The `passport.deserializeUser` callback (source lines 339-347):
rebuilds the user object from the stored identifier with the same
trailing-digits extraction as the validate callback. -/
def deserializeUser (identifier : String) : Except AuthError User :=
  match matchTrailingDigits identifier with
  | some d => Except.ok { identifier := identifier, steamId := d }
  | none => Except.error AuthError.malformedIdentifier

/-- A session holds zero or one user identity. -/
abbrev Session := Option User

/-- The `GET /auth/openid/return` route (source lines 402-409). The
`passport.authenticate` middleware runs first: on a verified assertion it
establishes the user on the request and in the session; on a rejected
assertion it leaves the session as it was and the handler sees no user.
The handler then redirects to `/?steamid=` followed by the Steam ID when
`request.user` is set, and to `/?failed` otherwise. Returns the resulting
session together with the redirect target. -/
def handleProviderReturn (verified : Except AuthError User) (session : Session) :
    Session × String :=
  match verified with
  | Except.ok u => (some u, "/?steamid=" ++ u.steamId)
  | Except.error _ => (session, "/?failed")

/-- JavaScript `x || d` on an optional string: the string when it is
present and non-empty (truthy), the default otherwise (`undefined` and the
empty string are falsy). -/
def jsOrDefault (v : Option String) (d : String) : String :=
  match v with
  | some s => if s = "" then d else s
  | none => d

/-- The `POST /auth/logout` route (source lines 421-426): `request.logout()`
clears the session, then the response redirects to the Referer header
when that header is truthy and to the site root otherwise. Returns the
resulting session together with the redirect target. -/
def logoutHandler (_session : Session) (referer : Option String) :
    Session × String :=
  (none, jsOrDefault referer "/")

/-- Model of `JSON.stringify` on a user object (two string fields, in
declaration order). -/
def jsonStringifyUser (u : User) : String :=
  "\x7b\"identifier\":\"" ++ u.identifier ++ "\",\"steamId\":\"" ++ u.steamId ++ "\"\x7d"

/-- JavaScript truthiness of an optional string: present and non-empty. -/
def jsTruthyStr (v : Option String) : Bool :=
  match v with
  | some s => s != ""
  | none => false

/-- The `GET /` route (source lines 435-453), as the list of chunks the
handler writes to the response. `requestUser` is `request.user`,
`sessionPassport` is the truthiness of `request.session.passport`, and
`steamidQuery` is `request.query.steamid` (absent, or present with its
string value; an extensionless `?steamid` parses to the empty string). -/
def rootHandler (requestUser : Option User) (sessionPassport : Bool)
    (steamidQuery : Option String) : List String :=
  ["<!DOCTYPE html>"] ++
    match requestUser with
    | some u =>
        [(if sessionPassport then jsOrDefault (some (jsonStringifyUser u)) "None"
          else "None"),
         "<form action=\"/auth/logout\" method=\"post\">",
         "<input type=\"submit\" value=\"Log Out\"/></form>"]
    | none =>
        (if jsTruthyStr steamidQuery then ["Not logged in."] else []) ++
          ["<form action=\"/auth/openid\" method=\"post\">",
           "<input name=\"submit\" type=\"image\" src=\"http://steamcommunity-a.akamaihd.net/public/images/signinthroughsteam/sits_small.png\" alt=\"Sign in through Steam\"/></form>"]

/-! The promise-chain demo (`App.doPromise`, source lines 27-43). All four
promises are constructed with an executor that calls `resolve`
synchronously, so each promise is settled from the start and the chain
reduces to sequential composition of settled promises. -/

/-- A value as observed in the demo: a number, `undefined` (what
`resolve()` with no argument fulfills with), or nothing else occurs. -/
inductive JsValue where
  | num (n : Nat)
  | undef
deriving Repr, DecidableEq

/-- A settled promise: fulfilled with a value or rejected with a reason. -/
inductive Promise where
  | fulfilled (v : JsValue)
  | rejected (reason : JsValue)
deriving Repr, DecidableEq

/-- One argument of a `console.log` call: a plain value, or a promise
object logged by reference (the first callback logs the `_await` promise
itself, not its value). -/
inductive LogArg where
  | value (v : JsValue)
  | promiseRef (p : Promise)
deriving Repr, DecidableEq

/-- Result of running a segment of the chain: the `console.log` calls it
performed (each call is the list of its arguments, in order) and the
settled state of the resulting promise. -/
structure StepResult where
  log : List (List LogArg)
  result : Promise
deriving Repr, DecidableEq

/-- Model of `p.then(onFulfilled)` on a settled promise: runs the callback
on the fulfillment value, or propagates a rejection without logging. -/
def pThen (p : Promise) (onFulfilled : JsValue → StepResult) : StepResult :=
  match p with
  | Promise.fulfilled v => onFulfilled v
  | Promise.rejected r => { log := [], result := Promise.rejected r }

/-- Model of `p.catch(onRejected)` on a settled promise: passes a
fulfilled promise through untouched, or runs the handler on the reason. -/
def pCatch (p : Promise) (onRejected : JsValue → StepResult) : StepResult :=
  match p with
  | Promise.fulfilled v => { log := [], result := Promise.fulfilled v }
  | Promise.rejected r => onRejected r

/-- Source line 28: `new Promise((resolve, reject) => { resolve(1) })`. -/
def p1 : Promise := Promise.fulfilled (JsValue.num 1)

/-- Source line 29: resolves immediately with 2. -/
def p2 : Promise := Promise.fulfilled (JsValue.num 2)

/-- Source line 30: resolves immediately with 3. -/
def p3 : Promise := Promise.fulfilled (JsValue.num 3)

/-- Source line 31, the promise named `_await`: its executor calls the
resolve function with no argument, so it is fulfilled with `undefined`. -/
def awaitPromise : Promise := Promise.fulfilled JsValue.undef

/-- The three `.then` steps of the chain, parametrized by the fourth
promise `w` that the first callback passes to `console.log` alongside the
first value. The first callback returns `p2`, the second returns `p3`,
the third returns `undefined` (a promise fulfilled with `undefined`). -/
def doPromisePreCatch (w : Promise) : StepResult :=
  let s1 := pThen p1 (fun v1 =>
    { log := [[LogArg.value v1, LogArg.promiseRef w]], result := p2 })
  let s2 := pThen s1.result (fun v2 =>
    { log := [[LogArg.value v2]], result := p3 })
  let s3 := pThen s2.result (fun v3 =>
    { log := [[LogArg.value v3]], result := Promise.fulfilled JsValue.undef })
  { log := s1.log ++ s2.log ++ s3.log, result := s3.result }

/-- The full chain including the final `.catch(err => console.log(err))`,
parametrized by the fourth promise `w`. -/
def doPromiseChain (w : Promise) : StepResult :=
  let s3 := doPromisePreCatch w
  let s4 := pCatch s3.result (fun e =>
    { log := [[LogArg.value e]], result := Promise.fulfilled JsValue.undef })
  { log := s3.log ++ s4.log, result := s4.result }

/-- The chain as written, with `_await` as the fourth promise. -/
def doPromise : StepResult :=
  doPromiseChain awaitPromise

/-- The sequence of numbers a run logged, in order. -/
def loggedNumbers (r : StepResult) : List Nat :=
  r.log.flatten.filterMap (fun a =>
    match a with
    | LogArg.value (JsValue.num n) => some n
    | _ => none)

/-! Helper lemmas about the trailing-digits extraction. -/

lemma takeWhile_eq_nil_of_head (p : Char → Bool) (l : List Char)
    (h : ∀ c, l.head? = some c → p c = false) : l.takeWhile p = [] := by
  cases l with
  | nil => rfl
  | cons a t => simp [List.takeWhile_cons, h a rfl]

lemma takeWhile_all_append (p : Char → Bool) (l1 : List Char) (m : Char)
    (l2 : List Char) (h1 : ∀ c ∈ l1, p c = true) (hm : p m = false) :
    (l1 ++ m :: l2).takeWhile p = l1 := by
  induction l1 with
  | nil => simp [List.takeWhile_cons, hm]
  | cons a t ih =>
      rw [List.cons_append, List.takeWhile_cons, h1 a (List.mem_cons_self a t),
        if_pos rfl, ih (fun c hc => h1 c (List.mem_cons_of_mem a hc))]

/-- On an identifier of the shape prefix, slash, digits, the extraction
returns exactly the digit block. -/
lemma trailingDigits_concat (pref ds : String)
    (hdig : ∀ c ∈ ds.data, c.isDigit = true) :
    trailingDigits (pref ++ "/" ++ ds) = ds := by
  unfold trailingDigits
  rw [String.data_append, String.data_append]
  have hslash : ("/" : String).data = [(Char.ofNat 47)] := rfl
  rw [hslash, List.reverse_append, List.reverse_append, List.reverse_singleton,
    List.singleton_append]
  rw [takeWhile_all_append Char.isDigit ds.data.reverse (Char.ofNat 47)
    pref.data.reverse (fun c hc => hdig c (List.mem_reverse.mp hc)) rfl]
  rw [List.reverse_reverse]

lemma matchTrailingDigits_concat (pref ds : String) (hne : ds ≠ "")
    (hdig : ∀ c ∈ ds.data, c.isDigit = true) :
    matchTrailingDigits (pref ++ "/" ++ ds) = some ds := by
  unfold matchTrailingDigits
  rw [trailingDigits_concat pref ds hdig, if_neg hne]

lemma matchTrailingDigits_eq_none (s : String)
    (h : ∀ c, s.data.getLast? = some c → c.isDigit = false) :
    matchTrailingDigits s = none := by
  have ht : s.data.reverse.takeWhile Char.isDigit = [] := by
    refine takeWhile_eq_nil_of_head Char.isDigit s.data.reverse ?_
    intro c hc
    exact h c (by rw [← List.head?_reverse]; exact hc)
  unfold matchTrailingDigits trailingDigits
  rw [ht]
  rfl

lemma trailingDigits_ne_empty (s : String) (c : Char)
    (h1 : s.data.getLast? = some c) (h2 : c.isDigit = true) :
    trailingDigits s ≠ "" := by
  unfold trailingDigits
  intro h
  have hnil : (s.data.reverse.takeWhile Char.isDigit).reverse = [] := by
    have := congrArg String.data h
    simpa using this
  rw [List.reverse_eq_nil_iff] at hnil
  have hh : s.data.reverse.head? = some c := by
    rw [List.head?_reverse]; exact h1
  cases hr : s.data.reverse with
  | nil => rw [hr] at hh; cases hh
  | cons a t =>
      rw [hr] at hh
      injection hh with hac
      rw [hr, List.takeWhile_cons, hac, h2] at hnil
      simp at hnil

/-! Claim theorems. -/

/-- C1: for every claimed identifier of the form prefix, slash, digits,
the user identity derived by the validate callback serializes (via
`serializeUser`) to a key that `deserializeUser` maps back to the same
user identity; in particular the extracted numeric ID (`steamId`) is
preserved by the round trip. -/
theorem c1_serialize_deserialize_roundtrip (pref ds : String) (hne : ds ≠ "")
    (hdig : ∀ c ∈ ds.data, c.isDigit = true) :
    ∃ u u', validateCallback (pref ++ "/" ++ ds) = Except.ok u ∧
      deserializeUser (serializeUser u) = Except.ok u' ∧
      u' = u ∧ u'.steamId = u.steamId := by
  have hm := matchTrailingDigits_concat pref ds hne hdig
  refine ⟨⟨pref ++ "/" ++ ds, ds⟩, ⟨pref ++ "/" ++ ds, ds⟩, ?_, ?_, rfl, rfl⟩
  · unfold validateCallback
    rw [hm]
  · unfold deserializeUser serializeUser
    rw [hm]

/-- C1 witness: the round trip at the documented example identifier. -/
theorem c1_serialize_deserialize_roundtrip_witness :
    ∃ u u',
      validateCallback
        ("http://provider.example/openid/id" ++ "/" ++ "76561197975696140") =
        Except.ok u ∧
      deserializeUser (serializeUser u) = Except.ok u' ∧
      u' = u ∧ u'.steamId = u.steamId :=
  c1_serialize_deserialize_roundtrip "http://provider.example/openid/id"
    "76561197975696140" (by decide) (by decide)

/-- C2: a claimed identifier with no trailing digit characters makes both
derivations of a user identity (the validate callback and
`deserializeUser`) fail with the malformed-identifier error, which is a
different error from a provider rejection. -/
theorem c2_malformed_identifier_error (s : String)
    (h : ∀ c, s.data.getLast? = some c → c.isDigit = false) :
    validateCallback s = Except.error AuthError.malformedIdentifier ∧
    deserializeUser s = Except.error AuthError.malformedIdentifier ∧
    AuthError.malformedIdentifier ≠ AuthError.providerRejected := by
  have hm := matchTrailingDigits_eq_none s h
  refine ⟨?_, ?_, by decide⟩
  · unfold validateCallback
    rw [hm]
  · unfold deserializeUser
    rw [hm]

/-- C2 witness: the documented example identifier that ends in a slash. -/
theorem c2_malformed_identifier_error_witness :
    validateCallback "http://provider.example/openid/id/" =
      Except.error AuthError.malformedIdentifier ∧
    deserializeUser "http://provider.example/openid/id/" =
      Except.error AuthError.malformedIdentifier ∧
    AuthError.malformedIdentifier ≠ AuthError.providerRejected :=
  c2_malformed_identifier_error "http://provider.example/openid/id/"
    (fun c hc => by
      have h0 : ("http://provider.example/openid/id/").data.getLast? =
          some (Char.ofNat 47) := rfl
      rw [h0] at hc
      injection hc with hc2
      rw [← hc2]
      decide)

/-- C3 counterexample: on a successful provider callback for the
documented example user, the handler redirects to a URL starting with
steamid as the query parameter name, not to the claimed target with id as
the query parameter name. -/
theorem c3_counterexample :
    (handleProviderReturn
      (Except.ok { identifier := "http://provider.example/openid/id/76561197975696140",
                   steamId := "76561197975696140" }) none).2 ≠
      "/?id=" ++ "76561197975696140" := by
  decide

/-- C3 amended: after a successful provider callback the handler stores
the user in the session and redirects to the root with the numeric ID in
the steamid query parameter. -/
theorem c3_redirect_on_success (u : User) (s : Session) :
    handleProviderReturn (Except.ok u) s = (some u, "/?steamid=" ++ u.steamId) :=
  rfl

/-- C3 amended witness: the amended redirect at the documented example
user. -/
theorem c3_redirect_on_success_witness :
    handleProviderReturn
      (Except.ok { identifier := "http://provider.example/openid/id/76561197975696140",
                   steamId := "76561197975696140" }) none =
      (some { identifier := "http://provider.example/openid/id/76561197975696140",
              steamId := "76561197975696140" },
       "/?steamid=" ++ "76561197975696140") :=
  c3_redirect_on_success
    { identifier := "http://provider.example/openid/id/76561197975696140",
      steamId := "76561197975696140" } none

/-- C4: for every provider-rejected assertion, starting from an anonymous
session, the return handler leaves the session anonymous and redirects to
the failure marker. -/
theorem c4_rejected_session_stays_anonymous (e : AuthError) :
    handleProviderReturn (Except.error e) none = (none, "/?failed") :=
  rfl

/-- C4 witness: a provider rejection at the concrete rejection error. -/
theorem c4_rejected_session_stays_anonymous_witness :
    handleProviderReturn (Except.error AuthError.providerRejected) none =
      (none, "/?failed") :=
  c4_rejected_session_stays_anonymous AuthError.providerRejected

/-- C5 counterexample: with a Referer header that is present but empty,
the logout handler redirects to the site root rather than to the value of
the referring page, refuting the claim for that input. -/
theorem c5_counterexample :
    (logoutHandler
      (some { identifier := "http://provider.example/openid/id/76561197975696140",
              steamId := "76561197975696140" }) (some "")).2 ≠ "" := by
  decide

/-- C5 amended: from every prior state the logout handler clears the
session to anonymous; it redirects to the referring page when a non-empty
Referer header is present, and to the site root when the header is absent
or empty. -/
theorem c5_logout_clears_session (s : Session) (referer : Option String) :
    (logoutHandler s referer).1 = none ∧
    (∀ r, referer = some r → r ≠ "" → (logoutHandler s referer).2 = r) ∧
    ((referer = none ∨ referer = some "") → (logoutHandler s referer).2 = "/") := by
  refine ⟨rfl, ?_, ?_⟩
  · intro r hr hne
    subst hr
    show jsOrDefault (some r) "/" = r
    simp only [jsOrDefault]
    rw [if_neg hne]
  · rintro (h | h) <;> subst h <;> rfl

/-- C5 witness: logging out from an authenticated session with a concrete
referring page. -/
theorem c5_logout_clears_session_witness :
    (logoutHandler (some { identifier := "x/1", steamId := "1" })
      (some "/page")).1 = none ∧
    (logoutHandler (some { identifier := "x/1", steamId := "1" })
      (some "/page")).2 = "/page" :=
  ⟨(c5_logout_clears_session (some { identifier := "x/1", steamId := "1" })
      (some "/page")).1,
   (c5_logout_clears_session (some { identifier := "x/1", steamId := "1" })
      (some "/page")).2.1 "/page" rfl (by decide)⟩

/-- C6: whatever already-resolved fourth promise is read at the first
step, the chain logs the three combined values in exactly the order
1, 2, 3. -/
theorem c6_logs_in_order (w : Promise) (v : JsValue)
    (hw : w = Promise.fulfilled v) :
    loggedNumbers (doPromiseChain w) = [1, 2, 3] := by
  subst hw
  rfl

/-- C6 witness: the chain as written, with the fourth promise resolved
with undefined. -/
theorem c6_logs_in_order_witness :
    loggedNumbers (doPromiseChain awaitPromise) = [1, 2, 3] :=
  c6_logs_in_order awaitPromise JsValue.undef rfl

/-- C7: the documented example identifier yields the numeric ID
76561197975696140, and `serializeUser` is the identity projection onto the
claimed identifier field. -/
theorem c7_example_and_serialize_projection :
    validateCallback "http://provider.example/openid/id/76561197975696140" =
      Except.ok { identifier := "http://provider.example/openid/id/76561197975696140",
                  steamId := "76561197975696140" } ∧
    ∀ u : User, serializeUser u = u.identifier :=
  ⟨rfl, fun _ => rfl⟩

/-- C8: all four constructed promises are fulfilled; the chain reaches the
catch step with a fulfilled promise, so the catch callback contributes no
log entry and the final promise is fulfilled; the complete log is the
three value entries, so no error value is ever logged. -/
theorem c8_no_rejection_catch_unreachable :
    p1 = Promise.fulfilled (JsValue.num 1) ∧
    p2 = Promise.fulfilled (JsValue.num 2) ∧
    p3 = Promise.fulfilled (JsValue.num 3) ∧
    awaitPromise = Promise.fulfilled JsValue.undef ∧
    (doPromisePreCatch awaitPromise).result = Promise.fulfilled JsValue.undef ∧
    doPromise.log = (doPromisePreCatch awaitPromise).log ∧
    doPromise.log.flatten =
      [LogArg.value (JsValue.num 1), LogArg.promiseRef awaitPromise,
       LogArg.value (JsValue.num 2), LogArg.value (JsValue.num 3)] ∧
    doPromise.result = Promise.fulfilled JsValue.undef :=
  ⟨rfl, rfl, rfl, rfl, rfl, rfl, rfl, rfl⟩

/-- C9 counterexample: with the steamid query parameter present but empty
(query string steamid equals the empty string), the anonymous page does
not contain the Not-logged-in text, refuting the claimed equivalence with
mere presence of the parameter. -/
theorem c9_counterexample :
    (some "" : Option String).isSome = true ∧
    "Not logged in." ∉ rootHandler none false (some "") := by
  refine ⟨rfl, ?_⟩
  decide

/-- C9 amended: for an anonymous request the response chunks contain the
Not-logged-in text iff the steamid query parameter is present with a
non-empty (truthy) value; the login form is written in either case. -/
theorem c9_not_logged_in_iff (sp : Bool) (q : Option String) :
    ("Not logged in." ∈ rootHandler none sp q ↔ jsTruthyStr q = true) ∧
    "<form action=\"/auth/openid\" method=\"post\">" ∈ rootHandler none sp q := by
  unfold rootHandler
  cases sp <;> cases hq : jsTruthyStr q <;> decide

/-- C9 amended witness: anonymous request with a non-empty steamid query
value. -/
theorem c9_not_logged_in_iff_witness :
    ("Not logged in." ∈ rootHandler none true (some "7656") ↔
      jsTruthyStr (some "7656") = true) ∧
    "<form action=\"/auth/openid\" method=\"post\">" ∈
      rootHandler none true (some "7656") :=
  c9_not_logged_in_iff true (some "7656")

/-- C10: every claimed identifier ending in at least one digit is accepted
by the validate callback, which produces a user object for it (never an
error and never a false user). -/
theorem c10_digit_suffix_always_accepted (s : String) (c : Char)
    (h1 : s.data.getLast? = some c) (h2 : c.isDigit = true) :
    ∃ u, validateCallback s = Except.ok u ∧ u.identifier = s := by
  have hne := trailingDigits_ne_empty s c h1 h2
  refine ⟨⟨s, trailingDigits s⟩, ?_, rfl⟩
  unfold validateCallback matchTrailingDigits
  rw [if_neg hne]

/-- C10 witness: a short identifier with a digit suffix. -/
theorem c10_digit_suffix_always_accepted_witness :
    ∃ u, validateCallback "abc123" = Except.ok u ∧ u.identifier = "abc123" :=
  c10_digit_suffix_always_accepted "abc123" (Char.ofNat 51) rfl rfl

end MyApp
